import Mathlib

/-!
Verification development for the OpenEO Home Assistant MQTT plugin
(`lib/homeassistant.py`, class `homeassistantClassPlugin`).

The Python module is shallowly embedded: the shared configuration store
(`globalState.configDB`, accessed via `set(plugin, key, value)` and
`get(plugin, key, default)`) is modelled as an association list keyed by
(plugin name, setting name); the shared runtime state (`globalState.stateDict`)
as a record of optional fields with `get`-with-default semantics; the MQTT
side effects as explicit lists of publish records.  Machine floats appear only
at the single point where `_handle_current_limit_command` runs
`int(float(payload))`: that conversion is abstracted as an
`Option Int`-valued parse (its truncated result, `none` when the conversion
raises), and theorems quantify over the parse result.
-/

namespace OpenEO

/-- A value stored in the shared config store (`globalState.configDB`):
the module only writes booleans and integer amp values. -/
inductive CVal where
  | bool (b : Bool)
  | int (n : Int)
  deriving DecidableEq, Repr

/-- The shared config store, keyed by (plugin name, setting name). -/
abbrev ConfigDB := List ((String × String) × CVal)

/-- `configDB.set(plugin, key, value)`: replace the entry for the key if
present, otherwise append it. -/
def ConfigDB.set : ConfigDB → String → String → CVal → ConfigDB
  | [], p, k, v => [((p, k), v)]
  | e :: rest, p, k, v =>
      if e.1 = (p, k) then ((p, k), v) :: rest else e :: ConfigDB.set rest p k v

/-- Lookup of a key in the config store (no default). -/
def ConfigDB.getVal : ConfigDB → String → String → Option CVal
  | [], _, _ => none
  | e :: rest, p, k => if e.1 = (p, k) then some e.2 else ConfigDB.getVal rest p k

/-- Python truthiness of a stored value. -/
def CVal.truthy : CVal → Bool
  | .bool b => b
  | .int n => n != 0

/-- `configDB.get(plugin, key, default)` read as a boolean, as the state
publisher does for `switch.enabled` / `scheduler.enabled`. -/
def ConfigDB.getBool (db : ConfigDB) (p k : String) (dflt : Bool) : Bool :=
  match db.getVal p k with
  | some v => v.truthy
  | none => dflt

/-- `globalState.stateDict`: shared runtime telemetry, read with
`stateDict.get(key, default)`; a `none` field means the key is absent. -/
structure StateDict where
  eo_charger_state : Option String := none
  eo_charger_state_id : Option Int := none
  eo_amps_requested : Option Int := none
  eo_amps_limit : Option Int := none
  eo_power_delivered : Option Int := none
  eo_power_requested : Option Int := none
  eo_live_voltage : Option Int := none
  eo_mains_frequency : Option Int := none
  eo_current_site : Option Int := none
  eo_current_vehicle : Option Int := none
  eo_current_solar : Option Int := none
  eo_overall_limit_current : Option Int := none
  eo_serial_errors : Option Int := none
  app_version : Option String := none

/-- The global charging-current constants from `globalState`. -/
structure Globals where
  MIN_CHARGING_CURRENT : Int
  MAX_CHARGING_CURRENT : Int

/-- The plugin's own configuration (the fields the embedded code reads).
`mqtt_discovery_pfx` embeds the source's discovery-prefix setting. -/
structure PluginConfig where
  enabled : Bool
  mqtt_discovery_pfx : String
  device_name : String
  device_id : String
  publish_interval : Int

/-- The module's own mutable connection state. -/
structure ModState where
  connected : Bool
  discovery_sent : Bool
  last_publish : Int

/-- ASCII image of Python's `str.upper` on one character. -/
def asciiUpperChar (c : Char) : Char :=
  if 97 ≤ c.toNat ∧ c.toNat ≤ 122 then Char.ofNat (c.toNat - 32) else c

/-- ASCII image of Python's `str.lower` on one character. -/
def asciiLowerChar (c : Char) : Char :=
  if 65 ≤ c.toNat ∧ c.toNat ≤ 90 then Char.ofNat (c.toNat + 32) else c

/-- `payload.upper()` (ASCII range; the compared-against tokens are all
ASCII). -/
def asciiUpper (s : String) : String := String.mk (s.data.map asciiUpperChar)

/-- `payload.lower()` (ASCII range; the compared-against tokens are all
ASCII). -/
def asciiLower (s : String) : String := String.mk (s.data.map asciiLowerChar)

/-- `_handle_switch_command`: `switch_on = payload.upper() in ["ON","TRUE","1"]`,
then set switch.enabled=true, switch.on=switch_on, scheduler.enabled=false. -/
def handle_switch_command (payload : String) (db : ConfigDB) : ConfigDB :=
  let switch_on := decide (asciiUpper payload ∈ (["ON", "TRUE", "1"] : List String))
  ((db.set "switch" "enabled" (.bool true)).set "switch" "on"
      (.bool switch_on)).set "scheduler" "enabled" (.bool false)

/-- `max_allowed` in `_handle_current_limit_command`:
`min(MAX_CHARGING_CURRENT, stateDict.get("eo_overall_limit_current", MAX_CHARGING_CURRENT))`. -/
def max_allowed (g : Globals) (sd : StateDict) : Int :=
  min g.MAX_CHARGING_CURRENT
    (sd.eo_overall_limit_current.getD g.MAX_CHARGING_CURRENT)

/-- `_handle_current_limit_command`.  `parsed` is the result of
`int(float(payload))`: the parsed value truncated to an integer, or `none`
when the conversion raises (the handler catches the error and changes
nothing). -/
def handle_current_limit_command (g : Globals) (sd : StateDict)
    (parsed : Option Int) (db : ConfigDB) : ConfigDB :=
  match parsed with
  | none => db
  | some current_limit =>
      if ¬ (g.MIN_CHARGING_CURRENT ≤ current_limit ∧
            current_limit ≤ max_allowed g sd) then
        db
      else
        ((db.set "switch" "amps" (.int current_limit)).set "switch" "enabled"
            (.bool true)).set "scheduler" "enabled" (.bool false)

/-- `_handle_mode_command`: dispatch on `payload.lower()`. -/
def handle_mode_command (payload : String) (db : ConfigDB) : ConfigDB :=
  let mode := asciiLower payload
  if mode = "manual" then
    (db.set "switch" "enabled" (.bool true)).set "scheduler" "enabled" (.bool false)
  else if mode = "schedule" then
    (db.set "scheduler" "enabled" (.bool true)).set "switch" "enabled" (.bool false)
  else if mode = "off" then
    (db.set "scheduler" "enabled" (.bool false)).set "switch" "enabled" (.bool false)
  else
    db

/-- `payload.split(":", 1)` specialised to `':'`: `none` when the string has
no colon, otherwise the part before the first colon and everything after it. -/
def splitOnceColon : List Char → Option (List Char × List Char)
  | [] => none
  | c :: cs =>
      if c = ':' then some ([], cs)
      else
        match splitOnceColon cs with
        | none => none
        | some (a, b) => some (c :: a, b)

/-- `_handle_enable_plugin_command`: split payload at the first colon; the
boolean token is truthy iff it lower-cases into
`["true","on","1","enabled"]`; the plugin name must be on the allow-list
`["scheduler","switch","loadmanagement"]`. -/
def handle_enable_plugin_command (payload : String) (db : ConfigDB) : ConfigDB :=
  match splitOnceColon payload.data with
  | none => db
  | some (nameChars, enabledChars) =>
      let plugin_name := String.mk nameChars
      let enabled_str := String.mk enabledChars
      let enabled :=
        decide (asciiLower enabled_str ∈ (["true", "on", "1", "enabled"] : List String))
      if plugin_name ∈ (["scheduler", "switch", "loadmanagement"] : List String) then
        db.set plugin_name "enabled" (.bool enabled)
      else
        db

/-- A JSON value, as produced by `json.dumps` on the documents this module
builds (object fields keep insertion order). -/
inductive JVal where
  | jbool (b : Bool)
  | jint (n : Int)
  | jstr (s : String)
  | jarr (xs : List JVal)
  | jobj (fields : List (String × JVal))

/-- JSON image of a stored config value. -/
def CVal.toJson : CVal → JVal
  | .bool b => .jbool b
  | .int n => .jint n

/-- One MQTT publish performed by the module. -/
structure Publish where
  topic : String
  payload : JVal
  retain : Bool

/-- One per-entity discovery publish attempt: the publish itself and whether
the underlying client call succeeded (a failure is only logged). -/
structure Attempt where
  pub : Publish
  success : Bool

/-- The state document built by `_publish_state` (the Python dict, field for
field, before `json.dumps`). -/
structure StatePayload where
  charger_state : String
  charger_state_id : Int
  amps_requested : Int
  amps_limit : Int
  power_delivered : Int
  power_requested : Int
  voltage : Int
  frequency : Int
  current_site : Int
  current_vehicle : Int
  current_solar : Int
  vehicle_connected : String
  charging_active : String
  mode : String
  switch_on : CVal
  switch_enabled : CVal
  serial_errors : Int
  app_version : String
  timestamp : Int

/-- Body of `_publish_state`: derive vehicle/charging flags from the charger
state id, the operating mode from the switch/scheduler enabled flags, and
collect the raw telemetry.  `now` is `int(time.time())`. -/
def state_payload (sd : StateDict) (db : ConfigDB) (now : Int) : StatePayload :=
  let charger_state_id := sd.eo_charger_state_id.getD 0
  let vehicle_connected :=
    decide (charger_state_id ∈ ([7, 8, 9, 10, 11, 12, 13, 14, 15, 16] : List Int))
  let charging_active :=
    decide (charger_state_id ∈ ([11, 12, 13, 14] : List Int))
  let switch_enabled := db.getBool "switch" "enabled" false
  let scheduler_enabled := db.getBool "scheduler" "enabled" false
  let current_mode :=
    if switch_enabled && !scheduler_enabled then "manual"
    else if scheduler_enabled && !switch_enabled then "schedule"
    else "off"
  { charger_state := sd.eo_charger_state.getD ""
    charger_state_id := charger_state_id
    amps_requested := sd.eo_amps_requested.getD 0
    amps_limit := sd.eo_amps_limit.getD 0
    power_delivered := sd.eo_power_delivered.getD 0
    power_requested := sd.eo_power_requested.getD 0
    voltage := sd.eo_live_voltage.getD 0
    frequency := sd.eo_mains_frequency.getD 0
    current_site := sd.eo_current_site.getD 0
    current_vehicle := sd.eo_current_vehicle.getD 0
    current_solar := sd.eo_current_solar.getD 0
    vehicle_connected := if vehicle_connected then "true" else "false"
    charging_active := if charging_active then "true" else "false"
    mode := current_mode
    switch_on := (db.getVal "switch" "on").getD (.bool false)
    switch_enabled := (db.getVal "switch" "enabled").getD (.bool false)
    serial_errors := sd.eo_serial_errors.getD 0
    app_version := sd.app_version.getD "unknown"
    timestamp := now }

/-- `json.dumps` image of the state document (dict insertion order). -/
def StatePayload.toJson (p : StatePayload) : JVal :=
  .jobj
    [("charger_state", .jstr p.charger_state),
     ("charger_state_id", .jint p.charger_state_id),
     ("amps_requested", .jint p.amps_requested),
     ("amps_limit", .jint p.amps_limit),
     ("power_delivered", .jint p.power_delivered),
     ("power_requested", .jint p.power_requested),
     ("voltage", .jint p.voltage),
     ("frequency", .jint p.frequency),
     ("current_site", .jint p.current_site),
     ("current_vehicle", .jint p.current_vehicle),
     ("current_solar", .jint p.current_solar),
     ("vehicle_connected", .jstr p.vehicle_connected),
     ("charging_active", .jstr p.charging_active),
     ("mode", .jstr p.mode),
     ("switch_on", p.switch_on.toJson),
     ("switch_enabled", p.switch_enabled.toJson),
     ("serial_errors", .jint p.serial_errors),
     ("app_version", .jstr p.app_version),
     ("timestamp", .jint p.timestamp)]

/-- The state topic `openeo/{device_id}/state`. -/
def state_topic (device_id : String) : String :=
  s!"openeo/{device_id}/state"

/-- `_publish_state`: early return when not connected, otherwise one
non-retained publish of the state document to `openeo/{device_id}/state`. -/
def publish_state (cfg : PluginConfig) (sd : StateDict) (db : ConfigDB)
    (now : Int) (s : ModState) : List Publish :=
  if !s.connected then []
  else
    [{ topic := state_topic cfg.device_id
       payload := (state_payload sd db now).toJson
       retain := false }]

/-- One entry of the fixed discovery catalog in `_send_discovery`
(`sensors` / `control_entities`): the per-entity dict, optional keys as
`Option` fields. -/
structure Entity where
  component : String
  object_id : String
  name : String
  state_topic : String
  value_template : Option String := none
  unit_of_measurement : Option String := none
  device_class : Option String := none
  icon : Option String := none
  payload_on : Option String := none
  payload_off : Option String := none
  command_topic : Option String := none
  min : Option Int := none
  max : Option Int := none
  step : Option Int := none
  options : Option (List String) := none

/-- The `sensors` list of `_send_discovery`: 10 sensors and 2 binary
sensors. -/
def sensors (device_id : String) : List Entity :=
  let st := s!"openeo/{device_id}/state"
  [{ component := "sensor", object_id := "charger_state", name := "Charger State",
     state_topic := st,
     value_template := some "\x7b\x7b value_json.charger_state \x7d\x7d",
     icon := some "mdi:ev-station" },
   { component := "sensor", object_id := "amps_requested", name := "Amps Requested",
     state_topic := st,
     value_template := some "\x7b\x7b value_json.amps_requested \x7d\x7d",
     unit_of_measurement := some "A", device_class := some "current",
     icon := some "mdi:current-ac" },
   { component := "sensor", object_id := "amps_limit", name := "Amps Limit",
     state_topic := st,
     value_template := some "\x7b\x7b value_json.amps_limit \x7d\x7d",
     unit_of_measurement := some "A", device_class := some "current",
     icon := some "mdi:current-ac" },
   { component := "sensor", object_id := "power_delivered", name := "Power Delivered",
     state_topic := st,
     value_template := some "\x7b\x7b value_json.power_delivered \x7d\x7d",
     unit_of_measurement := some "kW", device_class := some "power",
     icon := some "mdi:flash" },
   { component := "sensor", object_id := "power_requested", name := "Power Requested",
     state_topic := st,
     value_template := some "\x7b\x7b value_json.power_requested \x7d\x7d",
     unit_of_measurement := some "kW", device_class := some "power",
     icon := some "mdi:flash-outline" },
   { component := "sensor", object_id := "voltage", name := "Voltage",
     state_topic := st,
     value_template := some "\x7b\x7b value_json.voltage \x7d\x7d",
     unit_of_measurement := some "V", device_class := some "voltage",
     icon := some "mdi:lightning-bolt" },
   { component := "sensor", object_id := "frequency", name := "Mains Frequency",
     state_topic := st,
     value_template := some "\x7b\x7b value_json.frequency \x7d\x7d",
     unit_of_measurement := some "Hz", device_class := some "frequency",
     icon := some "mdi:sine-wave" },
   { component := "sensor", object_id := "current_site", name := "Site Current",
     state_topic := st,
     value_template := some "\x7b\x7b value_json.current_site \x7d\x7d",
     unit_of_measurement := some "A", device_class := some "current",
     icon := some "mdi:home-lightning-bolt" },
   { component := "sensor", object_id := "current_vehicle", name := "Vehicle Current",
     state_topic := st,
     value_template := some "\x7b\x7b value_json.current_vehicle \x7d\x7d",
     unit_of_measurement := some "A", device_class := some "current",
     icon := some "mdi:car-electric" },
   { component := "sensor", object_id := "current_solar", name := "Solar Current",
     state_topic := st,
     value_template := some "\x7b\x7b value_json.current_solar \x7d\x7d",
     unit_of_measurement := some "A", device_class := some "current",
     icon := some "mdi:solar-power" },
   { component := "binary_sensor", object_id := "vehicle_connected",
     name := "Vehicle Connected", state_topic := st,
     value_template := some "\x7b\x7b value_json.vehicle_connected \x7d\x7d",
     payload_on := some "true", payload_off := some "false",
     device_class := some "connectivity", icon := some "mdi:car-connected" },
   { component := "binary_sensor", object_id := "charging_active",
     name := "Charging Active", state_topic := st,
     value_template := some "\x7b\x7b value_json.charging_active \x7d\x7d",
     payload_on := some "true", payload_off := some "false",
     device_class := some "battery_charging", icon := some "mdi:battery-charging" }]

/-- The `control_entities` list of `_send_discovery`: switch, number,
select.  `minCurrent` is `MIN_CHARGING_CURRENT`; `maxAllowedCurrent` is the
dynamically computed `max_allowed_current`. -/
def control_entities (device_id : String) (minCurrent maxAllowedCurrent : Int) :
    List Entity :=
  let st := s!"openeo/{device_id}/state"
  [{ component := "switch", object_id := "charger_switch", name := "Charger Switch",
     state_topic := st,
     command_topic := some s!"openeo/{device_id}/command/switch/set",
     value_template := some
       "\x7b\x7b \x27ON\x27 if (value_json.switch_enabled and value_json.switch_on) else \x27OFF\x27 \x7d\x7d",
     payload_on := some "ON", payload_off := some "OFF",
     icon := some "mdi:ev-station", device_class := some "switch" },
   { component := "number", object_id := "current_limit", name := "Current Limit",
     state_topic := st,
     command_topic := some s!"openeo/{device_id}/command/current_limit/set",
     value_template := some "\x7b\x7b value_json.amps_limit \x7d\x7d",
     min := some minCurrent, max := some maxAllowedCurrent, step := some 1,
     unit_of_measurement := some "A", device_class := some "current",
     icon := some "mdi:current-ac" },
   { component := "select", object_id := "charger_mode", name := "Charger Mode",
     state_topic := st,
     command_topic := some s!"openeo/{device_id}/command/mode/set",
     value_template := some
       "\x7b\x7b \x27manual\x27 if value_json.mode == \x27manual\x27 else (\x27schedule\x27 if value_json.mode == \x27schedule\x27 else \x27off\x27) \x7d\x7d",
     options := some ["manual", "schedule", "off"],
     icon := some "mdi:cog" }]

/-- `all_entities = sensors + control_entities`. -/
def all_entities (device_id : String) (minCurrent maxAllowedCurrent : Int) :
    List Entity :=
  sensors device_id ++ control_entities device_id minCurrent maxAllowedCurrent

/-- `_get_device_info` as a JSON document. -/
def device_info_json (cfg : PluginConfig) (sd : StateDict) : JVal :=
  .jobj
    [("identifiers", .jarr [.jstr cfg.device_id]),
     ("name", .jstr cfg.device_name),
     ("manufacturer", .jstr "OpenEO"),
     ("model", .jstr "EV Charger Controller"),
     ("sw_version", .jstr (sd.app_version.getD "unknown"))]

/-- The per-entity discovery document in `_send_discovery`: base fields,
then the optional fields present on the entity, in the fixed order of the
`for field in [...]` loop. -/
def entity_config (device_id : String) (device : JVal) (e : Entity) : JVal :=
  let oid := e.object_id
  .jobj
    ([("name", JVal.jstr e.name),
      ("unique_id", JVal.jstr s!"{device_id}_{oid}"),
      ("state_topic", JVal.jstr e.state_topic),
      ("device", device)]
     ++ (match e.value_template with
         | some v => [("value_template", JVal.jstr v)] | none => [])
     ++ (match e.unit_of_measurement with
         | some v => [("unit_of_measurement", JVal.jstr v)] | none => [])
     ++ (match e.device_class with
         | some v => [("device_class", JVal.jstr v)] | none => [])
     ++ (match e.icon with
         | some v => [("icon", JVal.jstr v)] | none => [])
     ++ (match e.payload_on with
         | some v => [("payload_on", JVal.jstr v)] | none => [])
     ++ (match e.payload_off with
         | some v => [("payload_off", JVal.jstr v)] | none => [])
     ++ (match e.command_topic with
         | some v => [("command_topic", JVal.jstr v)] | none => [])
     ++ (match e.min with
         | some v => [("min", JVal.jint v)] | none => [])
     ++ (match e.max with
         | some v => [("max", JVal.jint v)] | none => [])
     ++ (match e.step with
         | some v => [("step", JVal.jint v)] | none => [])
     ++ (match e.options with
         | some v => [("options", JVal.jarr (v.map JVal.jstr))] | none => []))

/-- The discovery topic
`{discovery_prefix}/{component}/{device_id}/{object_id}/config`. -/
def discovery_topic (pfx device_id : String) (e : Entity) : String :=
  let comp := e.component
  let oid := e.object_id
  s!"{pfx}/{comp}/{device_id}/{oid}/config"

/-- `_send_discovery`: early return when not connected; otherwise one
retained publish attempt per catalog entity to
`{discovery_prefix}/{component}/{device_id}/{object_id}/config`, each
attempt's success given by the oracle `ok` (a failed `publish` is caught and
logged, the loop continues), and finally `discovery_sent = true`. -/
def send_discovery (cfg : PluginConfig) (g : Globals) (sd : StateDict)
    (ok : String → Bool) (s : ModState) : List Attempt × ModState :=
  if !s.connected then ([], s)
  else
    let device_info := device_info_json cfg sd
    let pfx := cfg.mqtt_discovery_pfx
    let device_id := cfg.device_id
    let max_allowed_current :=
      min g.MAX_CHARGING_CURRENT
        (sd.eo_overall_limit_current.getD g.MAX_CHARGING_CURRENT)
    let entities := all_entities device_id g.MIN_CHARGING_CURRENT max_allowed_current
    let attempts := entities.map (fun e =>
      let topic := discovery_topic pfx device_id e
      { pub := { topic := topic
                 payload := entity_config device_id device_info e
                 retain := true }
        success := ok topic : Attempt })
    (attempts, { s with discovery_sent := true })

/-- `_on_message` after UTF-8 decode and strip: dispatch on the four command
topics; every handler only mutates the config store and publishes nothing.
`parseAmps` abstracts `int(float(payload))` as in
`handle_current_limit_command`. -/
def on_message (g : Globals) (cfg : PluginConfig) (sd : StateDict)
    (parseAmps : String → Option Int) (db : ConfigDB)
    (topic payload : String) : ConfigDB × List Publish :=
  let device_id := cfg.device_id
  if topic = s!"openeo/{device_id}/command/switch/set" then
    (handle_switch_command payload db, [])
  else if topic = s!"openeo/{device_id}/command/current_limit/set" then
    (handle_current_limit_command g sd (parseAmps payload) db, [])
  else if topic = s!"openeo/{device_id}/command/mode/set" then
    (handle_mode_command payload db, [])
  else if topic = s!"openeo/{device_id}/command/enable_plugin/set" then
    (handle_enable_plugin_command payload db, [])
  else
    (db, [])

/-- `_on_disconnect`: unconditionally clear `connected` and
`discovery_sent`, whatever the return code. -/
def on_disconnect (rc : Int) (s : ModState) : ModState :=
  { s with connected := false, discovery_sent := false }

/-- `poll`: no-op when the MQTT library is missing or the plugin disabled;
otherwise spawn a discovery thread when connected without discovery sent
(returned as the `Bool`, the thread runs asynchronously), and when
`current_time - last_publish >= publish_interval` run `_publish_state` and
set `last_publish = current_time`. -/
def poll (mqtt_available : Bool) (cfg : PluginConfig) (sd : StateDict)
    (db : ConfigDB) (now : Int) (s : ModState) :
    ModState × List Publish × Bool :=
  if !mqtt_available || !cfg.enabled then (s, [], false)
  else
    let spawn_discovery := s.connected && !s.discovery_sent
    if now - s.last_publish ≥ cfg.publish_interval then
      ({ s with last_publish := now }, publish_state cfg sd db now s, spawn_discovery)
    else
      (s, [], spawn_discovery)

/-! ## Association-list store lemmas -/

theorem ConfigDB.getVal_set_self (db : ConfigDB) (p k : String) (v : CVal) :
    (db.set p k v).getVal p k = some v := by
  induction db with
  | nil => simp [ConfigDB.set, ConfigDB.getVal]
  | cons e rest ih =>
      by_cases h : e.1 = (p, k) <;>
        simp [ConfigDB.set, ConfigDB.getVal, h, ih]

theorem ConfigDB.getVal_set_other (db : ConfigDB) (p k p' k' : String) (v : CVal)
    (h : (p', k') ≠ (p, k)) :
    (db.set p k v).getVal p' k' = db.getVal p' k' := by
  induction db with
  | nil => simp [ConfigDB.set, ConfigDB.getVal, Ne.symm h]
  | cons e rest ih =>
      by_cases he : e.1 = (p, k)
      · simp [ConfigDB.set, ConfigDB.getVal, he, Ne.symm h]
      · simp [ConfigDB.set, ConfigDB.getVal, he, ih]

/-! ## Claim theorems -/

/-- C1: for the current_limit/set command, a payload whose parse truncates to
an integer within `[MIN_CHARGING_CURRENT, min(MAX_CHARGING_CURRENT,
overall-limit-or-MAX)]` sets switch.amps to that integer, switch.enabled to
true and scheduler.enabled to false; an unparsable payload or an
out-of-range value mutates no config-store key (rejected, not clamped). -/
theorem current_limit_set_spec (g : Globals) (sd : StateDict) (db : ConfigDB)
    (parsed : Option Int) :
    (parsed = none → handle_current_limit_command g sd parsed db = db) ∧
    ∀ v, parsed = some v →
      (g.MIN_CHARGING_CURRENT ≤ v ∧ v ≤ max_allowed g sd →
        (handle_current_limit_command g sd parsed db).getVal "switch" "amps"
            = some (.int v) ∧
        (handle_current_limit_command g sd parsed db).getVal "switch" "enabled"
            = some (.bool true) ∧
        (handle_current_limit_command g sd parsed db).getVal "scheduler" "enabled"
            = some (.bool false)) ∧
      (¬ (g.MIN_CHARGING_CURRENT ≤ v ∧ v ≤ max_allowed g sd) →
        handle_current_limit_command g sd parsed db = db) := by
  constructor
  · intro h; subst h; rfl
  · intro v hv; subst hv
    constructor
    · intro hr
      simp only [handle_current_limit_command, if_neg (not_not_intro hr)]
      refine ⟨?_, ?_, ?_⟩
      · rw [ConfigDB.getVal_set_other _ _ _ _ _ _ (by decide),
            ConfigDB.getVal_set_other _ _ _ _ _ _ (by decide),
            ConfigDB.getVal_set_self]
      · rw [ConfigDB.getVal_set_other _ _ _ _ _ _ (by decide),
            ConfigDB.getVal_set_self]
      · rw [ConfigDB.getVal_set_self]
    · intro hnr
      simp only [handle_current_limit_command, if_pos hnr]

/-- C2: for the switch/set command, every payload sets switch.enabled=true
and scheduler.enabled=false, and switch.on is set to true exactly when the
upper-cased payload is one of "ON", "TRUE", "1", to false otherwise
(all three keys are written even for a non-matching payload). -/
theorem switch_set_spec (payload : String) (db : ConfigDB) :
    (handle_switch_command payload db).getVal "switch" "enabled"
        = some (.bool true) ∧
    (handle_switch_command payload db).getVal "scheduler" "enabled"
        = some (.bool false) ∧
    ((handle_switch_command payload db).getVal "switch" "on"
        = some (.bool true) ↔
      (asciiUpper payload = "ON" ∨ asciiUpper payload = "TRUE" ∨ asciiUpper payload = "1")) ∧
    (¬ (asciiUpper payload = "ON" ∨ asciiUpper payload = "TRUE" ∨ asciiUpper payload = "1") →
      (handle_switch_command payload db).getVal "switch" "on"
        = some (.bool false)) := by
  have hen : (handle_switch_command payload db).getVal "switch" "enabled"
      = some (.bool true) := by
    simp only [handle_switch_command]
    rw [ConfigDB.getVal_set_other _ _ _ _ _ _ (by decide),
        ConfigDB.getVal_set_other _ _ _ _ _ _ (by decide),
        ConfigDB.getVal_set_self]
  have hsch : (handle_switch_command payload db).getVal "scheduler" "enabled"
      = some (.bool false) := by
    simp only [handle_switch_command]
    rw [ConfigDB.getVal_set_self]
  have hon : (handle_switch_command payload db).getVal "switch" "on"
      = some (.bool (decide (asciiUpper payload ∈ (["ON", "TRUE", "1"] : List String)))) := by
    simp only [handle_switch_command]
    rw [ConfigDB.getVal_set_other _ _ _ _ _ _ (by decide),
        ConfigDB.getVal_set_self]
  refine ⟨hen, hsch, ?_, ?_⟩
  · rw [hon]
    simp [List.mem_cons]
  · intro hmem
    rw [hon]
    simp only [List.mem_cons, List.mem_singleton, List.not_mem_nil, or_false] at *
    simp [hmem]

/-- C4: for the mode/set command, lower-cased payload "manual" sets
switch.enabled=true and scheduler.enabled=false; "schedule" sets
scheduler.enabled=true and switch.enabled=false; "off" sets both false; any
other payload mutates no config-store key. -/
theorem mode_set_spec (payload : String) (db : ConfigDB) :
    (asciiLower payload = "manual" →
      (handle_mode_command payload db).getVal "switch" "enabled"
          = some (.bool true) ∧
      (handle_mode_command payload db).getVal "scheduler" "enabled"
          = some (.bool false)) ∧
    (asciiLower payload = "schedule" →
      (handle_mode_command payload db).getVal "scheduler" "enabled"
          = some (.bool true) ∧
      (handle_mode_command payload db).getVal "switch" "enabled"
          = some (.bool false)) ∧
    (asciiLower payload = "off" →
      (handle_mode_command payload db).getVal "scheduler" "enabled"
          = some (.bool false) ∧
      (handle_mode_command payload db).getVal "switch" "enabled"
          = some (.bool false)) ∧
    (asciiLower payload ∉ (["manual", "schedule", "off"] : List String) →
      handle_mode_command payload db = db) := by
  refine ⟨?_, ?_, ?_, ?_⟩
  · intro h
    have hred : handle_mode_command payload db =
        (db.set "switch" "enabled" (.bool true)).set "scheduler" "enabled"
          (.bool false) := by
      simp [handle_mode_command, h]
    rw [hred]
    constructor
    · rw [ConfigDB.getVal_set_other _ _ _ _ _ _ (by decide),
          ConfigDB.getVal_set_self]
    · rw [ConfigDB.getVal_set_self]
  · intro h
    have hred : handle_mode_command payload db =
        (db.set "scheduler" "enabled" (.bool true)).set "switch" "enabled"
          (.bool false) := by
      simp [handle_mode_command, h]
    rw [hred]
    constructor
    · rw [ConfigDB.getVal_set_other _ _ _ _ _ _ (by decide),
          ConfigDB.getVal_set_self]
    · rw [ConfigDB.getVal_set_self]
  · intro h
    have hred : handle_mode_command payload db =
        (db.set "scheduler" "enabled" (.bool false)).set "switch" "enabled"
          (.bool false) := by
      simp [handle_mode_command, h]
    rw [hred]
    constructor
    · rw [ConfigDB.getVal_set_other _ _ _ _ _ _ (by decide),
          ConfigDB.getVal_set_self]
    · rw [ConfigDB.getVal_set_self]
  · intro h
    simp only [List.mem_cons, List.mem_singleton, List.not_mem_nil, or_false,
      not_or] at h
    obtain ⟨h1, h2, h3⟩ := h
    simp only [handle_mode_command, if_neg h1, if_neg h2, if_neg h3]

theorem splitOnceColon_of_no_colon (cs : List Char) (h : ':' ∉ cs) :
    splitOnceColon cs = none := by
  induction cs with
  | nil => rfl
  | cons c cs ih =>
      simp only [List.mem_cons, not_or] at h
      simp [splitOnceColon, Ne.symm h.1, ih h.2]

theorem splitOnceColon_first (pre rest : List Char) (h : ':' ∉ pre) :
    splitOnceColon (pre ++ ':' :: rest) = some (pre, rest) := by
  induction pre with
  | nil => simp [splitOnceColon]
  | cons c cs ih =>
      simp only [List.mem_cons, not_or] at h
      simp [splitOnceColon, Ne.symm h.1, ih h.2]

/-- C5: for the enable_plugin/set command, a payload without a colon mutates
nothing; otherwise the payload splits at the first colon into a plugin name
and a boolean token; a plugin name outside the allow-list
scheduler/switch/loadmanagement mutates nothing; an allowed plugin name has
its `enabled` key set to true exactly when the lower-cased token is one of
"true", "on", "1", "enabled", and to false otherwise. -/
theorem enable_plugin_set_spec (payload : String) (db : ConfigDB) :
    (':' ∉ payload.data → handle_enable_plugin_command payload db = db) ∧
    ∀ pre rest : List Char, ':' ∉ pre → payload.data = pre ++ ':' :: rest →
      (String.mk pre ∉ (["scheduler", "switch", "loadmanagement"] : List String) →
        handle_enable_plugin_command payload db = db) ∧
      (String.mk pre ∈ (["scheduler", "switch", "loadmanagement"] : List String) →
        ((handle_enable_plugin_command payload db).getVal (String.mk pre) "enabled"
            = some (.bool true) ↔
          asciiLower (String.mk rest) ∈ (["true", "on", "1", "enabled"] : List String)) ∧
        (asciiLower (String.mk rest) ∉ (["true", "on", "1", "enabled"] : List String) →
          (handle_enable_plugin_command payload db).getVal (String.mk pre) "enabled"
            = some (.bool false))) := by
  constructor
  · intro h
    simp [handle_enable_plugin_command, splitOnceColon_of_no_colon payload.data h]
  · intro pre rest hpre hsplit
    have hred : handle_enable_plugin_command payload db =
        (if String.mk pre ∈ (["scheduler", "switch", "loadmanagement"] : List String) then
          db.set (String.mk pre) "enabled"
            (.bool (decide (asciiLower (String.mk rest) ∈
              (["true", "on", "1", "enabled"] : List String))))
        else db) := by
      simp only [handle_enable_plugin_command, hsplit,
        splitOnceColon_first pre rest hpre]
    constructor
    · intro hmem
      rw [hred, if_neg hmem]
    · intro hmem
      rw [hred, if_pos hmem, ConfigDB.getVal_set_self]
      constructor
      · simp
      · intro hno
        simp [hno]

/-- C3: in every published state document, charging_active is "true" exactly
when the charger state id is in {11,12,13,14} ("false" otherwise),
vehicle_connected is "true" exactly when the id is in {7,...,16} ("false"
otherwise), and mode is "manual" when switch.enabled and not
scheduler.enabled, "schedule" when scheduler.enabled and not switch.enabled,
and "off" otherwise (including both flags equal). -/
theorem publish_state_derived_fields (sd : StateDict) (db : ConfigDB) (now : Int) :
    ((state_payload sd db now).charging_active = "true" ↔
      sd.eo_charger_state_id.getD 0 ∈ ([11, 12, 13, 14] : List Int)) ∧
    ((state_payload sd db now).charging_active = "false" ↔
      sd.eo_charger_state_id.getD 0 ∉ ([11, 12, 13, 14] : List Int)) ∧
    ((state_payload sd db now).vehicle_connected = "true" ↔
      sd.eo_charger_state_id.getD 0 ∈
        ([7, 8, 9, 10, 11, 12, 13, 14, 15, 16] : List Int)) ∧
    ((state_payload sd db now).vehicle_connected = "false" ↔
      sd.eo_charger_state_id.getD 0 ∉
        ([7, 8, 9, 10, 11, 12, 13, 14, 15, 16] : List Int)) ∧
    (db.getBool "switch" "enabled" false = true ∧
        db.getBool "scheduler" "enabled" false = false →
      (state_payload sd db now).mode = "manual") ∧
    (db.getBool "scheduler" "enabled" false = true ∧
        db.getBool "switch" "enabled" false = false →
      (state_payload sd db now).mode = "schedule") ∧
    (db.getBool "switch" "enabled" false = db.getBool "scheduler" "enabled" false →
      (state_payload sd db now).mode = "off") := by
  refine ⟨?_, ?_, ?_, ?_, ?_, ?_, ?_⟩
  · by_cases h : sd.eo_charger_state_id.getD 0 ∈ ([11, 12, 13, 14] : List Int) <;>
      simp [state_payload, h]
  · by_cases h : sd.eo_charger_state_id.getD 0 ∈ ([11, 12, 13, 14] : List Int) <;>
      simp [state_payload, h]
  · by_cases h : sd.eo_charger_state_id.getD 0 ∈
        ([7, 8, 9, 10, 11, 12, 13, 14, 15, 16] : List Int) <;>
      simp [state_payload, h]
  · by_cases h : sd.eo_charger_state_id.getD 0 ∈
        ([7, 8, 9, 10, 11, 12, 13, 14, 15, 16] : List Int) <;>
      simp [state_payload, h]
  · rintro ⟨h1, h2⟩
    simp [state_payload, h1, h2]
  · rintro ⟨h1, h2⟩
    simp [state_payload, h1, h2]
  · intro h
    cases h2 : db.getBool "scheduler" "enabled" false <;>
      rw [h2] at h <;> simp [state_payload, h, h2]

/-- C6: with `connected = true`, the discovery routine attempts exactly 15
retained publishes — one per catalog entity (10 sensors, 2 binary_sensors,
1 switch, 1 number, 1 select), each to
`{discovery_prefix}/{component}/{device_id}/{object_id}/config` — and ends
with `discovery_sent = true`; the attempts and the final flag are the same
for every per-publish success oracle, so a failed publish aborts nothing. -/
theorem send_discovery_spec (cfg : PluginConfig) (g : Globals) (sd : StateDict)
    (ok : String → Bool) (s : ModState) (h : s.connected = true) :
    (send_discovery cfg g sd ok s).1.length = 15 ∧
    (send_discovery cfg g sd ok s).1.all (fun a => a.pub.retain) = true ∧
    (send_discovery cfg g sd ok s).1.map (fun a => a.pub.topic)
      = (all_entities cfg.device_id g.MIN_CHARGING_CURRENT (max_allowed g sd)).map
          (discovery_topic cfg.mqtt_discovery_pfx cfg.device_id) ∧
    (all_entities cfg.device_id g.MIN_CHARGING_CURRENT (max_allowed g sd)).countP
        (fun e => e.component == "sensor") = 10 ∧
    (all_entities cfg.device_id g.MIN_CHARGING_CURRENT (max_allowed g sd)).countP
        (fun e => e.component == "binary_sensor") = 2 ∧
    (all_entities cfg.device_id g.MIN_CHARGING_CURRENT (max_allowed g sd)).countP
        (fun e => e.component == "switch") = 1 ∧
    (all_entities cfg.device_id g.MIN_CHARGING_CURRENT (max_allowed g sd)).countP
        (fun e => e.component == "number") = 1 ∧
    (all_entities cfg.device_id g.MIN_CHARGING_CURRENT (max_allowed g sd)).countP
        (fun e => e.component == "select") = 1 ∧
    (send_discovery cfg g sd ok s).2 = { s with discovery_sent := true } ∧
    (send_discovery cfg g sd ok s).1.map (fun a => a.pub)
      = (send_discovery cfg g sd (fun _ => true) s).1.map (fun a => a.pub) := by
  obtain ⟨c, ds, lp⟩ := s
  obtain rfl : c = true := h
  exact ⟨rfl, rfl, rfl, rfl, rfl, rfl, rfl, rfl, rfl, rfl⟩

/-- C7: the disconnect callback clears `connected` and `discovery_sent`
unconditionally, for every prior module state and return code. -/
theorem on_disconnect_spec (rc : Int) (s : ModState) :
    (on_disconnect rc s).connected = false ∧
    (on_disconnect rc s).discovery_sent = false :=
  ⟨rfl, rfl⟩

/-- C8: a state message is published only while connected — the state
publisher emits nothing when `connected` is false, and anything it emits
goes to `openeo/{device_id}/state` with `connected` true — and command
handling publishes nothing to MQTT for any topic and payload, only mutating
the config store. -/
theorem mqtt_effect_invariants (g : Globals) (cfg : PluginConfig) (sd : StateDict)
    (parseAmps : String → Option Int) (db : ConfigDB) (topic payload : String)
    (now : Int) (s : ModState) :
    (s.connected = false → publish_state cfg sd db now s = []) ∧
    (∀ pub ∈ publish_state cfg sd db now s,
        s.connected = true ∧ pub.topic = state_topic cfg.device_id) ∧
    (on_message g cfg sd parseAmps db topic payload).2 = [] := by
  refine ⟨?_, ?_, ?_⟩
  · intro h
    simp [publish_state, h]
  · intro pub hp
    cases hc : s.connected
    · simp only [publish_state, hc] at hp
      simp at hp
    · simp only [publish_state, hc] at hp
      simp at hp
      exact ⟨rfl, by rw [hp]⟩
  · simp only [on_message]
    split_ifs <;> rfl

/-- C9: running the discovery routine twice while connected, with shared
state and configuration unchanged, yields exactly the same attempt list
(same topics and same JSON documents) both times, 15 publishes each — no
accumulation. -/
theorem send_discovery_idempotent (cfg : PluginConfig) (g : Globals)
    (sd : StateDict) (ok : String → Bool) (s : ModState)
    (h : s.connected = true) :
    (send_discovery cfg g sd ok ((send_discovery cfg g sd ok s).2)).1
      = (send_discovery cfg g sd ok s).1 ∧
    (send_discovery cfg g sd ok s).1.length = 15 := by
  obtain ⟨c, ds, lp⟩ := s
  obtain rfl : c = true := h
  exact ⟨rfl, rfl⟩

/-- C10: when the module is enabled, the MQTT library is available and the
publish interval has elapsed, `poll` advances `last_publish` to the current
time even while disconnected — and in that case publishes no state message,
so the timer moves with nothing sent. -/
theorem poll_interval_advance (cfg : PluginConfig) (sd : StateDict)
    (db : ConfigDB) (now : Int) (s : ModState)
    (hen : cfg.enabled = true) (hconn : s.connected = false)
    (hintv : now - s.last_publish ≥ cfg.publish_interval) :
    (poll true cfg sd db now s).1.last_publish = now ∧
    (poll true cfg sd db now s).2.1 = [] := by
  simp [poll, hen, hconn, hintv, publish_state]

/-! ## Concrete witnesses -/

/-- C1 witness: payload parsing to 15 with MIN=6, MAX=32 and no overall
limit is accepted; 100 is rejected; an unparsable payload changes nothing. -/
theorem current_limit_set_spec_witness :
    (handle_current_limit_command ⟨6, 32⟩ {} (some 15) []).getVal "switch" "amps"
        = some (.int 15) ∧
    handle_current_limit_command ⟨6, 32⟩ {} (some 100) [] = [] ∧
    handle_current_limit_command ⟨6, 32⟩ {} none [] = [] :=
  ⟨(((current_limit_set_spec ⟨6, 32⟩ {} [] (some 15)).2 15 rfl).1 (by decide)).1,
   ((current_limit_set_spec ⟨6, 32⟩ {} [] (some 100)).2 100 rfl).2 (by decide),
   (current_limit_set_spec ⟨6, 32⟩ {} [] none).1 rfl⟩

/-- C2 witness: payload "on" turns the switch on, payload "hello" turns it
off and still writes all three keys. -/
theorem switch_set_spec_witness :
    (handle_switch_command "on" []).getVal "switch" "on" = some (.bool true) ∧
    (handle_switch_command "hello" []).getVal "switch" "on" = some (.bool false) ∧
    (handle_switch_command "hello" []).getVal "switch" "enabled" = some (.bool true) ∧
    (handle_switch_command "hello" []).getVal "scheduler" "enabled" = some (.bool false) :=
  ⟨(switch_set_spec "on" []).2.2.1.mpr (by decide),
   (switch_set_spec "hello" []).2.2.2 (by decide),
   (switch_set_spec "hello" []).1,
   (switch_set_spec "hello" []).2.1⟩

/-- C3 witness: charger state id 12 gives charging_active "true"; id 3
gives vehicle_connected "false" and charging_active "false". -/
theorem publish_state_derived_fields_witness :
    (state_payload { eo_charger_state_id := some 12 } [] 0).charging_active = "true" ∧
    (state_payload { eo_charger_state_id := some 3 } [] 0).vehicle_connected = "false" ∧
    (state_payload { eo_charger_state_id := some 3 } [] 0).charging_active = "false" :=
  ⟨(publish_state_derived_fields { eo_charger_state_id := some 12 } [] 0).1.mpr
      (by decide),
   (publish_state_derived_fields { eo_charger_state_id := some 3 } [] 0).2.2.2.1.mpr
      (by decide),
   (publish_state_derived_fields { eo_charger_state_id := some 3 } [] 0).2.1.mpr
      (by decide)⟩

/-- C4 witness: payload "SCHEDULE" enables the scheduler and disables the
switch; payload "bogus" mutates nothing. -/
theorem mode_set_spec_witness :
    (handle_mode_command "SCHEDULE" []).getVal "scheduler" "enabled" = some (.bool true) ∧
    (handle_mode_command "SCHEDULE" []).getVal "switch" "enabled" = some (.bool false) ∧
    handle_mode_command "bogus" [] = [] :=
  ⟨((mode_set_spec "SCHEDULE" []).2.1 (by decide)).1,
   ((mode_set_spec "SCHEDULE" []).2.1 (by decide)).2,
   (mode_set_spec "bogus" []).2.2.2 (by decide)⟩

/-- C5 witness: "scheduler:true" enables the scheduler plugin;
"hacker:true" is rejected; "switch" (no colon) is rejected. -/
theorem enable_plugin_set_spec_witness :
    (handle_enable_plugin_command "scheduler:true" []).getVal "scheduler" "enabled"
        = some (.bool true) ∧
    handle_enable_plugin_command "hacker:true" [] = [] ∧
    handle_enable_plugin_command "switch" [] = [] :=
  ⟨(((enable_plugin_set_spec "scheduler:true" []).2 "scheduler".data "true".data
        (by decide) (by decide)).2 (by decide)).1.mpr (by decide),
   ((enable_plugin_set_spec "hacker:true" []).2 "hacker".data "true".data
        (by decide) (by decide)).1 (by decide),
   (enable_plugin_set_spec "switch" []).1 (by decide)⟩

/-- C6 witness: a connected module attempts 15 discovery publishes and ends
with `discovery_sent = true`, even with every publish failing. -/
theorem send_discovery_spec_witness :
    (send_discovery ⟨true, "homeassistant", "OpenEO Charger", "openeo_charger_1", 5⟩
        ⟨6, 32⟩ {} (fun _ => false) ⟨true, false, 0⟩).1.length = 15 ∧
    (send_discovery ⟨true, "homeassistant", "OpenEO Charger", "openeo_charger_1", 5⟩
        ⟨6, 32⟩ {} (fun _ => false) ⟨true, false, 0⟩).2.discovery_sent = true := by
  have h := send_discovery_spec
      ⟨true, "homeassistant", "OpenEO Charger", "openeo_charger_1", 5⟩
      ⟨6, 32⟩ {} (fun _ => false) ⟨true, false, 0⟩ rfl
  refine ⟨h.1, ?_⟩
  rw [h.2.2.2.2.2.2.2.2.1]

/-- C8 witness: no state publish while disconnected, and a mode command
produces no MQTT publish. -/
theorem mqtt_effect_invariants_witness :
    publish_state ⟨true, "homeassistant", "OpenEO Charger", "openeo_charger_1", 5⟩
        {} [] 0 ⟨false, false, 0⟩ = [] ∧
    (on_message ⟨6, 32⟩
        ⟨true, "homeassistant", "OpenEO Charger", "openeo_charger_1", 5⟩
        {} (fun _ => none) [] "openeo/openeo_charger_1/command/mode/set" "manual").2
      = [] := by
  have h := mqtt_effect_invariants ⟨6, 32⟩
      ⟨true, "homeassistant", "OpenEO Charger", "openeo_charger_1", 5⟩ {}
      (fun _ => none) [] "openeo/openeo_charger_1/command/mode/set" "manual" 0
      ⟨false, false, 0⟩
  exact ⟨h.1 rfl, h.2.2⟩

/-- C9 witness: two consecutive discovery runs of a connected module produce
the same attempt list. -/
theorem send_discovery_idempotent_witness :
    (send_discovery ⟨true, "homeassistant", "OpenEO Charger", "openeo_charger_1", 5⟩
        ⟨6, 32⟩ {} (fun _ => true)
        ((send_discovery
            ⟨true, "homeassistant", "OpenEO Charger", "openeo_charger_1", 5⟩
            ⟨6, 32⟩ {} (fun _ => true) ⟨true, false, 0⟩).2)).1
      = (send_discovery
          ⟨true, "homeassistant", "OpenEO Charger", "openeo_charger_1", 5⟩
          ⟨6, 32⟩ {} (fun _ => true) ⟨true, false, 0⟩).1 :=
  (send_discovery_idempotent
      ⟨true, "homeassistant", "OpenEO Charger", "openeo_charger_1", 5⟩
      ⟨6, 32⟩ {} (fun _ => true) ⟨true, false, 0⟩ rfl).1

/-- C10 witness: disconnected, enabled, interval elapsed (10 - 0 ≥ 5):
`last_publish` advances to 10 with no publish. -/
theorem poll_interval_advance_witness :
    (poll true ⟨true, "homeassistant", "OpenEO Charger", "openeo_charger_1", 5⟩
        {} [] 10 ⟨false, false, 0⟩).1.last_publish = 10 ∧
    (poll true ⟨true, "homeassistant", "OpenEO Charger", "openeo_charger_1", 5⟩
        {} [] 10 ⟨false, false, 0⟩).2.1 = [] :=
  poll_interval_advance
    ⟨true, "homeassistant", "OpenEO Charger", "openeo_charger_1", 5⟩
    {} [] 10 ⟨false, false, 0⟩ rfl rfl (by decide)

end OpenEO
